import Mathlib

/-
Verification of the pig nutrient-circularity decision-support tool
(Cascading_app.py): the flow-graph data model, the baseline-derived
partition ratios, the cascading scenario update and the circularity
metrics, embedded shallowly over exact rationals.
-/

/-- Flow keys F1..F20 of the nitrogen flow table. -/
inductive FlowKey
  | F1 | F2 | F3 | F4 | F5 | F6 | F7 | F8 | F9 | F10
  | F11 | F12 | F13 | F14 | F15 | F16 | F17 | F18 | F19 | F20
deriving DecidableEq

/-- A flow table maps each of the 20 flow keys to a magnitude (kg N/year). -/
abbrev FlowTable := FlowKey → ℚ

/-- Baseline N flows F1..F20 in kg N/year (BASE_FLOWS_N in the source). -/
def BASE_FLOWS_N : FlowTable := fun k =>
  match k with
  | .F1 => 4800
  | .F2 => 800
  | .F3 => 300
  | .F4 => 0
  | .F5 => 2400
  | .F6 => 2400
  | .F7 => 900
  | .F8 => 1900
  | .F9 => 200
  | .F10 => 300
  | .F11 => 1300
  | .F12 => 300
  | .F13 => 300
  | .F14 => 0
  | .F15 => 800
  | .F16 => 500
  | .F17 => 200
  | .F18 => 50
  | .F19 => 100
  | .F20 => 50

/-- Baseline total outflow of the manure-storage compartment (F8+F9+F10). -/
def _storage_out_total : ℚ := BASE_FLOWS_N .F8 + BASE_FLOWS_N .F9 + BASE_FLOWS_N .F10

/-- Fraction of manure excretion going to soil available. -/
def P_F8 : ℚ := BASE_FLOWS_N .F8 / _storage_out_total

/-- Fraction of manure excretion going to soil stable. -/
def P_F9 : ℚ := BASE_FLOWS_N .F9 / _storage_out_total

/-- Fraction of manure excretion lost to the environment from storage. -/
def P_F10 : ℚ := BASE_FLOWS_N .F10 / _storage_out_total

/-- Baseline total outflow of the soil-available compartment (F11+F12+F13). -/
def _soil_out_total : ℚ := BASE_FLOWS_N .F11 + BASE_FLOWS_N .F12 + BASE_FLOWS_N .F13

/-- Fraction of soil-available outflow taken up by crops. -/
def P_F11 : ℚ := BASE_FLOWS_N .F11 / _soil_out_total

/-- Fraction of soil-available outflow lost in the field. -/
def P_F12 : ℚ := BASE_FLOWS_N .F12 / _soil_out_total

/-- Fraction of soil-available outflow immobilized to soil stable. -/
def P_F13 : ℚ := BASE_FLOWS_N .F13 / _soil_out_total

/-- Baseline crop N input (F11). -/
def _crop_in_baseline : ℚ := BASE_FLOWS_N .F11

/-- Fraction of crop N going to feed. -/
def P_F15 : ℚ := BASE_FLOWS_N .F15 / _crop_in_baseline

/-- Fraction of crop N going to grain export. -/
def P_F16 : ℚ := BASE_FLOWS_N .F16 / _crop_in_baseline

/-- Target plant-available soil N at end of year (ACCESSIBLE_TARGET). -/
def ACCESSIBLE_TARGET : ℚ := 50

/-- Record of circularity metrics, the dictionary returned by
compute_circularity_metrics_N in the source. -/
structure Metrics where
  input_N : ℚ
  circular_N : ℚ
  accessible_N : ℚ
  lost_N : ℚ
  env_loss : ℚ
  locked_stable : ℚ
deriving DecidableEq

/-- Circularity metrics of a flow table (compute_circularity_metrics_N). -/
def compute_circularity_metrics_N (flows : FlowTable) : Metrics :=
  let input_N := flows .F1 + flows .F3 + flows .F4
  let pig_exports := flows .F5 + flows .F19
  let grain_exports := flows .F16
  let circular_N := pig_exports + grain_exports
  let C7_in := flows .F4 + flows .F8 + flows .F14 + flows .F18
  let accessible_N := min ACCESSIBLE_TARGET C7_in
  let env_loss := flows .F7 + flows .F10 + flows .F12 + flows .F20
  let locked_stable := flows .F9 + flows .F13 - flows .F14
  let lost_N := env_loss + locked_stable
  { input_N := input_N
    circular_N := circular_N
    accessible_N := accessible_N
    lost_N := lost_N
    env_loss := env_loss
    locked_stable := locked_stable }

/-
The cascade of update_scenario, line by line: each local assignment of the
source becomes one definition in the percentage parameter p.
-/

/-- Step 1 of the cascade: reduced housing loss F7 (new_F7 in the source). -/
def new_F7 (p : ℚ) : ℚ := BASE_FLOWS_N .F7 * (1 - p / 100)

/-- N saved from housing emissions (delta in the source). -/
def delta (p : ℚ) : ℚ := BASE_FLOWS_N .F7 - new_F7 p

/-- Updated excretion flow F6: baseline plus the saved N. -/
def new_F6 (p : ℚ) : ℚ := BASE_FLOWS_N .F6 + delta p

/-- Step 2: repartitioned storage-to-soil-available flow F8. -/
def new_F8 (p : ℚ) : ℚ := new_F6 p * P_F8

/-- Step 2: repartitioned storage-to-soil-stable flow F9. -/
def new_F9 (p : ℚ) : ℚ := new_F6 p * P_F9

/-- Step 2: repartitioned storage-loss flow F10. -/
def new_F10 (p : ℚ) : ℚ := new_F6 p * P_F10

/-- Step 3: inflow of the soil-available compartment C7
(F4 and F14 and F18 are still at baseline when it is read). -/
def C7_in (p : ℚ) : ℚ := BASE_FLOWS_N .F4 + new_F8 p + BASE_FLOWS_N .F14 + BASE_FLOWS_N .F18

/-- Step 3: capped accessible pool of the soil-available compartment. -/
def accessible_N (p : ℚ) : ℚ := min ACCESSIBLE_TARGET (C7_in p)

/-- Step 3: remaining outflow of the soil-available compartment. -/
def outflow_from_C7 (p : ℚ) : ℚ := max (C7_in p - accessible_N p) 0

/-- Step 3: repartitioned crop-uptake flow F11. -/
def new_F11 (p : ℚ) : ℚ := outflow_from_C7 p * P_F11

/-- Step 3: repartitioned field-loss flow F12. -/
def new_F12 (p : ℚ) : ℚ := outflow_from_C7 p * P_F12

/-- Step 3: repartitioned immobilization flow F13. -/
def new_F13 (p : ℚ) : ℚ := outflow_from_C7 p * P_F13

/-- Step 4: repartitioned crops-to-feed flow F15. -/
def new_F15 (p : ℚ) : ℚ := new_F11 p * P_F15

/-- Step 4: repartitioned crops-to-export flow F16. -/
def new_F16 (p : ℚ) : ℚ := new_F11 p * P_F16

/-- The scenario flow table of update_scenario: a copy of the baseline with
flows F6..F13, F15, F16 overwritten by the cascade. -/
def update_scenario (p : ℚ) : FlowTable := fun k =>
  match k with
  | .F6 => new_F6 p
  | .F7 => new_F7 p
  | .F8 => new_F8 p
  | .F9 => new_F9 p
  | .F10 => new_F10 p
  | .F11 => new_F11 p
  | .F12 => new_F12 p
  | .F13 => new_F13 p
  | .F15 => new_F15 p
  | .F16 => new_F16 p
  | k => BASE_FLOWS_N k

/-
Helper lemmas: how update_scenario reads at each key, and closed forms of
the cascade quantities as affine functions of the percentage p.
-/

theorem us_app_F1 (p : ℚ) : update_scenario p .F1 = BASE_FLOWS_N .F1 := rfl

theorem us_app_F2 (p : ℚ) : update_scenario p .F2 = BASE_FLOWS_N .F2 := rfl

theorem us_app_F3 (p : ℚ) : update_scenario p .F3 = BASE_FLOWS_N .F3 := rfl

theorem us_app_F4 (p : ℚ) : update_scenario p .F4 = BASE_FLOWS_N .F4 := rfl

theorem us_app_F5 (p : ℚ) : update_scenario p .F5 = BASE_FLOWS_N .F5 := rfl

theorem us_app_F6 (p : ℚ) : update_scenario p .F6 = new_F6 p := rfl

theorem us_app_F7 (p : ℚ) : update_scenario p .F7 = new_F7 p := rfl

theorem us_app_F8 (p : ℚ) : update_scenario p .F8 = new_F8 p := rfl

theorem us_app_F9 (p : ℚ) : update_scenario p .F9 = new_F9 p := rfl

theorem us_app_F10 (p : ℚ) : update_scenario p .F10 = new_F10 p := rfl

theorem us_app_F11 (p : ℚ) : update_scenario p .F11 = new_F11 p := rfl

theorem us_app_F12 (p : ℚ) : update_scenario p .F12 = new_F12 p := rfl

theorem us_app_F13 (p : ℚ) : update_scenario p .F13 = new_F13 p := rfl

theorem us_app_F14 (p : ℚ) : update_scenario p .F14 = BASE_FLOWS_N .F14 := rfl

theorem us_app_F15 (p : ℚ) : update_scenario p .F15 = new_F15 p := rfl

theorem us_app_F16 (p : ℚ) : update_scenario p .F16 = new_F16 p := rfl

theorem us_app_F17 (p : ℚ) : update_scenario p .F17 = BASE_FLOWS_N .F17 := rfl

theorem us_app_F18 (p : ℚ) : update_scenario p .F18 = BASE_FLOWS_N .F18 := rfl

theorem us_app_F19 (p : ℚ) : update_scenario p .F19 = BASE_FLOWS_N .F19 := rfl

theorem us_app_F20 (p : ℚ) : update_scenario p .F20 = BASE_FLOWS_N .F20 := rfl

theorem P_F8_eq : P_F8 = 19 / 24 := by
  norm_num [P_F8, _storage_out_total, BASE_FLOWS_N]

theorem P_F9_eq : P_F9 = 1 / 12 := by
  norm_num [P_F9, _storage_out_total, BASE_FLOWS_N]

theorem P_F10_eq : P_F10 = 1 / 8 := by
  norm_num [P_F10, _storage_out_total, BASE_FLOWS_N]

theorem P_F11_eq : P_F11 = 13 / 19 := by
  norm_num [P_F11, _soil_out_total, BASE_FLOWS_N]

theorem P_F12_eq : P_F12 = 3 / 19 := by
  norm_num [P_F12, _soil_out_total, BASE_FLOWS_N]

theorem P_F13_eq : P_F13 = 3 / 19 := by
  norm_num [P_F13, _soil_out_total, BASE_FLOWS_N]

theorem P_F15_eq : P_F15 = 8 / 13 := by
  norm_num [P_F15, _crop_in_baseline, BASE_FLOWS_N]

theorem P_F16_eq : P_F16 = 5 / 13 := by
  norm_num [P_F16, _crop_in_baseline, BASE_FLOWS_N]

theorem new_F7_eq (p : ℚ) : new_F7 p = 900 - 9 * p := by
  show (900 : ℚ) * (1 - p / 100) = 900 - 9 * p
  ring

theorem delta_eq (p : ℚ) : delta p = 9 * p := by
  show BASE_FLOWS_N .F7 - new_F7 p = 9 * p
  rw [new_F7_eq]
  show (900 : ℚ) - (900 - 9 * p) = 9 * p
  ring

theorem new_F6_eq (p : ℚ) : new_F6 p = 2400 + 9 * p := by
  show BASE_FLOWS_N .F6 + delta p = 2400 + 9 * p
  rw [delta_eq]
  show (2400 : ℚ) + 9 * p = 2400 + 9 * p
  rfl

theorem new_F8_eq (p : ℚ) : new_F8 p = 1900 + 57 * p / 8 := by
  show new_F6 p * P_F8 = 1900 + 57 * p / 8
  rw [new_F6_eq, P_F8_eq]
  ring

theorem new_F9_eq (p : ℚ) : new_F9 p = 200 + 3 * p / 4 := by
  show new_F6 p * P_F9 = 200 + 3 * p / 4
  rw [new_F6_eq, P_F9_eq]
  ring

theorem new_F10_eq (p : ℚ) : new_F10 p = 300 + 9 * p / 8 := by
  show new_F6 p * P_F10 = 300 + 9 * p / 8
  rw [new_F6_eq, P_F10_eq]
  ring

theorem C7_in_eq (p : ℚ) : C7_in p = 1950 + 57 * p / 8 := by
  show BASE_FLOWS_N .F4 + new_F8 p + BASE_FLOWS_N .F14 + BASE_FLOWS_N .F18
      = 1950 + 57 * p / 8
  rw [new_F8_eq]
  show (0 : ℚ) + (1900 + 57 * p / 8) + 0 + 50 = 1950 + 57 * p / 8
  ring

theorem accessible_N_eq (p : ℚ) (hp : 0 ≤ p) : accessible_N p = 50 := by
  rw [accessible_N, C7_in_eq, ACCESSIBLE_TARGET]
  exact min_eq_left (by linarith)

theorem outflow_from_C7_eq (p : ℚ) (hp : 0 ≤ p) :
    outflow_from_C7 p = 1900 + 57 * p / 8 := by
  rw [outflow_from_C7, accessible_N_eq p hp, C7_in_eq]
  rw [max_eq_left (by linarith)]
  ring

theorem new_F11_eq (p : ℚ) (hp : 0 ≤ p) : new_F11 p = 1300 + 39 * p / 8 := by
  show outflow_from_C7 p * P_F11 = 1300 + 39 * p / 8
  rw [outflow_from_C7_eq p hp, P_F11_eq]
  ring

theorem new_F12_eq (p : ℚ) (hp : 0 ≤ p) : new_F12 p = 300 + 9 * p / 8 := by
  show outflow_from_C7 p * P_F12 = 300 + 9 * p / 8
  rw [outflow_from_C7_eq p hp, P_F12_eq]
  ring

theorem new_F13_eq (p : ℚ) (hp : 0 ≤ p) : new_F13 p = 300 + 9 * p / 8 := by
  show outflow_from_C7 p * P_F13 = 300 + 9 * p / 8
  rw [outflow_from_C7_eq p hp, P_F13_eq]
  ring

theorem new_F15_eq (p : ℚ) (hp : 0 ≤ p) : new_F15 p = 800 + 3 * p := by
  show new_F11 p * P_F15 = 800 + 3 * p
  rw [new_F11_eq p hp, P_F15_eq]
  ring

theorem new_F16_eq (p : ℚ) (hp : 0 ≤ p) : new_F16 p = 500 + 15 * p / 8 := by
  show new_F11 p * P_F16 = 500 + 15 * p / 8
  rw [new_F11_eq p hp, P_F16_eq]
  ring

/-
Claim theorems.
-/

/-- C1: Conservation of mass at every affected compartment: for every
percent in [0,100], the cascade output satisfies F7+F6 = baseline F7+F6
(animal compartment), F8+F9+F10 = F6 (manure storage), F15+F16 = F11
(crops), and at the soil-available compartment F11+F12+F13 plus the capped
accessible pool min(50, inflow) equals the inflow F4+F8+F14+F18. -/
theorem C1_conservation_at_compartments (p : ℚ) (hp0 : 0 ≤ p) (hp1 : p ≤ 100) :
    update_scenario p .F7 + update_scenario p .F6
        = BASE_FLOWS_N .F7 + BASE_FLOWS_N .F6
    ∧ update_scenario p .F8 + update_scenario p .F9 + update_scenario p .F10
        = update_scenario p .F6
    ∧ update_scenario p .F15 + update_scenario p .F16 = update_scenario p .F11
    ∧ update_scenario p .F11 + update_scenario p .F12 + update_scenario p .F13
        + min 50 (update_scenario p .F4 + update_scenario p .F8
            + update_scenario p .F14 + update_scenario p .F18)
        = update_scenario p .F4 + update_scenario p .F8
            + update_scenario p .F14 + update_scenario p .F18 := by
  refine ⟨?_, ?_, ?_, ?_⟩
  · rw [us_app_F7, us_app_F6, new_F7_eq, new_F6_eq]
    show (900 : ℚ) - 9 * p + (2400 + 9 * p) = 900 + 2400
    ring
  · rw [us_app_F8, us_app_F9, us_app_F10, us_app_F6,
      new_F8_eq, new_F9_eq, new_F10_eq, new_F6_eq]
    ring
  · rw [us_app_F15, us_app_F16, us_app_F11,
      new_F15_eq p hp0, new_F16_eq p hp0, new_F11_eq p hp0]
    ring
  · have hx : update_scenario p .F4 + update_scenario p .F8
        + update_scenario p .F14 + update_scenario p .F18
        = 1950 + 57 * p / 8 := by
      rw [us_app_F4, us_app_F8, us_app_F14, us_app_F18, new_F8_eq]
      show (0 : ℚ) + (1900 + 57 * p / 8) + 0 + 50 = 1950 + 57 * p / 8
      ring
    rw [hx, us_app_F11, us_app_F12, us_app_F13,
      new_F11_eq p hp0, new_F12_eq p hp0, new_F13_eq p hp0,
      min_eq_left (by linarith : (50 : ℚ) ≤ 1950 + 57 * p / 8)]
    ring

/-- Witness for C1 at percent 10. -/
theorem C1_conservation_at_compartments_witness :
    (0 : ℚ) ≤ 10 ∧ (10 : ℚ) ≤ 100 ∧
    (update_scenario 10 .F7 + update_scenario 10 .F6
        = BASE_FLOWS_N .F7 + BASE_FLOWS_N .F6
    ∧ update_scenario 10 .F8 + update_scenario 10 .F9 + update_scenario 10 .F10
        = update_scenario 10 .F6
    ∧ update_scenario 10 .F15 + update_scenario 10 .F16 = update_scenario 10 .F11
    ∧ update_scenario 10 .F11 + update_scenario 10 .F12 + update_scenario 10 .F13
        + min 50 (update_scenario 10 .F4 + update_scenario 10 .F8
            + update_scenario 10 .F14 + update_scenario 10 .F18)
        = update_scenario 10 .F4 + update_scenario 10 .F8
            + update_scenario 10 .F14 + update_scenario 10 .F18) :=
  ⟨by norm_num, by norm_num,
    C1_conservation_at_compartments 10 (by norm_num) (by norm_num)⟩

/-- C2: Identity at zero perturbation: the cascade at percent 0 returns the
baseline table exactly, and the metrics computed from it have
input 5100 and circular 3000. -/
theorem C2_identity_at_zero :
    (∀ k, update_scenario 0 k = BASE_FLOWS_N k)
    ∧ (compute_circularity_metrics_N (update_scenario 0)).input_N = 5100
    ∧ (compute_circularity_metrics_N (update_scenario 0)).circular_N = 3000 := by
  have h0 : (0 : ℚ) ≤ 0 := le_refl 0
  have htab : ∀ k, update_scenario 0 k = BASE_FLOWS_N k := by
    intro k
    cases k <;>
      first
        | rfl
        | (rw [us_app_F6, new_F6_eq]; norm_num [BASE_FLOWS_N])
        | (rw [us_app_F7, new_F7_eq]; norm_num [BASE_FLOWS_N])
        | (rw [us_app_F8, new_F8_eq]; norm_num [BASE_FLOWS_N])
        | (rw [us_app_F9, new_F9_eq]; norm_num [BASE_FLOWS_N])
        | (rw [us_app_F10, new_F10_eq]; norm_num [BASE_FLOWS_N])
        | (rw [us_app_F11, new_F11_eq 0 h0]; norm_num [BASE_FLOWS_N])
        | (rw [us_app_F12, new_F12_eq 0 h0]; norm_num [BASE_FLOWS_N])
        | (rw [us_app_F13, new_F13_eq 0 h0]; norm_num [BASE_FLOWS_N])
        | (rw [us_app_F15, new_F15_eq 0 h0]; norm_num [BASE_FLOWS_N])
        | (rw [us_app_F16, new_F16_eq 0 h0]; norm_num [BASE_FLOWS_N])
  refine ⟨htab, ?_, ?_⟩
  · show update_scenario 0 .F1 + update_scenario 0 .F3 + update_scenario 0 .F4
        = 5100
    simp only [htab]
    norm_num [BASE_FLOWS_N]
  · show update_scenario 0 .F5 + update_scenario 0 .F19 + update_scenario 0 .F16
        = 3000
    simp only [htab]
    norm_num [BASE_FLOWS_N]

/-- C3: Accessible cap postcondition: on any flow table, the metrics record
has accessible equal to min(50, F4+F8+F14+F18) recomputed from that table,
hence accessible is at most 50. -/
theorem C3_accessible_cap (flows : FlowTable) :
    (compute_circularity_metrics_N flows).accessible_N
        = min 50 (flows .F4 + flows .F8 + flows .F14 + flows .F18)
    ∧ (compute_circularity_metrics_N flows).accessible_N ≤ 50 := by
  constructor
  · rfl
  · show min ACCESSIBLE_TARGET (flows .F4 + flows .F8 + flows .F14 + flows .F18)
        ≤ 50
    exact min_le_left _ _

/-- C4: Partition fidelity: for every percent in [0,100], the manure-storage
outflows F8:F9:F10, the soil-available outflows F11:F12:F13 and the crop
outflows F15:F16 of the cascade output stand in the baseline ratios
(1900:200:300, 1300:300:300, 800:500) within 1e-9. -/
theorem C4_partition_fidelity (p : ℚ) (hp0 : 0 ≤ p) (hp1 : p ≤ 100) :
    |update_scenario p .F8 / update_scenario p .F9 - 1900 / 200| ≤ 1 / 1000000000
    ∧ |update_scenario p .F9 / update_scenario p .F10 - 200 / 300| ≤ 1 / 1000000000
    ∧ |update_scenario p .F11 / update_scenario p .F12 - 1300 / 300| ≤ 1 / 1000000000
    ∧ |update_scenario p .F12 / update_scenario p .F13 - 300 / 300| ≤ 1 / 1000000000
    ∧ |update_scenario p .F15 / update_scenario p .F16 - 800 / 500| ≤ 1 / 1000000000 := by
  refine ⟨?_, ?_, ?_, ?_, ?_⟩
  · rw [us_app_F8, us_app_F9, new_F8_eq, new_F9_eq]
    have hpos : (0 : ℚ) < 200 + 3 * p / 4 := by linarith
    have hz : (1900 + 57 * p / 8) / (200 + 3 * p / 4) - 1900 / 200 = 0 := by
      rw [sub_eq_zero, div_eq_div_iff hpos.ne' (by norm_num : (200 : ℚ) ≠ 0)]
      ring
    rw [hz]
    norm_num
  · rw [us_app_F9, us_app_F10, new_F9_eq, new_F10_eq]
    have hpos : (0 : ℚ) < 300 + 9 * p / 8 := by linarith
    have hz : (200 + 3 * p / 4) / (300 + 9 * p / 8) - 200 / 300 = 0 := by
      rw [sub_eq_zero, div_eq_div_iff hpos.ne' (by norm_num : (300 : ℚ) ≠ 0)]
      ring
    rw [hz]
    norm_num
  · rw [us_app_F11, us_app_F12, new_F11_eq p hp0, new_F12_eq p hp0]
    have hpos : (0 : ℚ) < 300 + 9 * p / 8 := by linarith
    have hz : (1300 + 39 * p / 8) / (300 + 9 * p / 8) - 1300 / 300 = 0 := by
      rw [sub_eq_zero, div_eq_div_iff hpos.ne' (by norm_num : (300 : ℚ) ≠ 0)]
      ring
    rw [hz]
    norm_num
  · rw [us_app_F12, us_app_F13, new_F12_eq p hp0, new_F13_eq p hp0]
    have hpos : (0 : ℚ) < 300 + 9 * p / 8 := by linarith
    have hz : (300 + 9 * p / 8) / (300 + 9 * p / 8) - 300 / 300 = 0 := by
      rw [sub_eq_zero, div_eq_div_iff hpos.ne' (by norm_num : (300 : ℚ) ≠ 0)]
      ring
    rw [hz]
    norm_num
  · rw [us_app_F15, us_app_F16, new_F15_eq p hp0, new_F16_eq p hp0]
    have hpos : (0 : ℚ) < 500 + 15 * p / 8 := by linarith
    have hz : (800 + 3 * p) / (500 + 15 * p / 8) - 800 / 500 = 0 := by
      rw [sub_eq_zero, div_eq_div_iff hpos.ne' (by norm_num : (500 : ℚ) ≠ 0)]
      ring
    rw [hz]
    norm_num

/-- Witness for C4 at percent 20. -/
theorem C4_partition_fidelity_witness :
    (0 : ℚ) ≤ 20 ∧ (20 : ℚ) ≤ 100 ∧
    (|update_scenario 20 .F8 / update_scenario 20 .F9 - 1900 / 200| ≤ 1 / 1000000000
    ∧ |update_scenario 20 .F9 / update_scenario 20 .F10 - 200 / 300| ≤ 1 / 1000000000
    ∧ |update_scenario 20 .F11 / update_scenario 20 .F12 - 1300 / 300| ≤ 1 / 1000000000
    ∧ |update_scenario 20 .F12 / update_scenario 20 .F13 - 300 / 300| ≤ 1 / 1000000000
    ∧ |update_scenario 20 .F15 / update_scenario 20 .F16 - 800 / 500| ≤ 1 / 1000000000) :=
  ⟨by norm_num, by norm_num,
    C4_partition_fidelity 20 (by norm_num) (by norm_num)⟩

/-- C5: Concrete cascade values at percent 5: delta 45, housing loss F7 at
855, excretion F6 at 2445, and storage outflows equal to 2445 times the
baseline fractions 1900/2400, 200/2400 and 300/2400. -/
theorem C5_scenario_percent_five :
    delta 5 = 45
    ∧ update_scenario 5 .F7 = 855
    ∧ update_scenario 5 .F6 = 2445
    ∧ update_scenario 5 .F8 = 2445 * (1900 / 2400)
    ∧ update_scenario 5 .F9 = 2445 * (200 / 2400)
    ∧ update_scenario 5 .F10 = 2445 * (300 / 2400) := by
  refine ⟨?_, ?_, ?_, ?_, ?_, ?_⟩
  · rw [delta_eq]; norm_num
  · rw [us_app_F7, new_F7_eq]; norm_num
  · rw [us_app_F6, new_F6_eq]; norm_num
  · rw [us_app_F8, new_F8_eq]; norm_num
  · rw [us_app_F9, new_F9_eq]; norm_num
  · rw [us_app_F10, new_F10_eq]; norm_num

/-- C6: Frame condition: for every percent in [0,100], the flows not touched
by cascade steps 2 to 8 (F1, F2, F3, F4, F5, F14, F17, F18, F19, F20) keep
their baseline values in the cascade output. -/
theorem C6_frame_condition (p : ℚ) (hp0 : 0 ≤ p) (hp1 : p ≤ 100) :
    update_scenario p .F1 = BASE_FLOWS_N .F1
    ∧ update_scenario p .F2 = BASE_FLOWS_N .F2
    ∧ update_scenario p .F3 = BASE_FLOWS_N .F3
    ∧ update_scenario p .F4 = BASE_FLOWS_N .F4
    ∧ update_scenario p .F5 = BASE_FLOWS_N .F5
    ∧ update_scenario p .F14 = BASE_FLOWS_N .F14
    ∧ update_scenario p .F17 = BASE_FLOWS_N .F17
    ∧ update_scenario p .F18 = BASE_FLOWS_N .F18
    ∧ update_scenario p .F19 = BASE_FLOWS_N .F19
    ∧ update_scenario p .F20 = BASE_FLOWS_N .F20 :=
  ⟨rfl, rfl, rfl, rfl, rfl, rfl, rfl, rfl, rfl, rfl⟩

/-- Witness for C6 at percent 25. -/
theorem C6_frame_condition_witness :
    (0 : ℚ) ≤ 25 ∧ (25 : ℚ) ≤ 100 ∧
    (update_scenario 25 .F1 = BASE_FLOWS_N .F1
    ∧ update_scenario 25 .F2 = BASE_FLOWS_N .F2
    ∧ update_scenario 25 .F3 = BASE_FLOWS_N .F3
    ∧ update_scenario 25 .F4 = BASE_FLOWS_N .F4
    ∧ update_scenario 25 .F5 = BASE_FLOWS_N .F5
    ∧ update_scenario 25 .F14 = BASE_FLOWS_N .F14
    ∧ update_scenario 25 .F17 = BASE_FLOWS_N .F17
    ∧ update_scenario 25 .F18 = BASE_FLOWS_N .F18
    ∧ update_scenario 25 .F19 = BASE_FLOWS_N .F19
    ∧ update_scenario 25 .F20 = BASE_FLOWS_N .F20) :=
  ⟨by norm_num, by norm_num,
    C6_frame_condition 25 (by norm_num) (by norm_num)⟩

/-- C10: Implicit constancy of the accessible metric: for every percent in
[0,100] the soil-available inflow of the cascade output is
1950 + (57/8) percent (57/8 = 7.125), which exceeds the cap 50, so the
metrics of the output and of the baseline both have accessible exactly 50
and the redistribution remainder is strictly positive. -/
theorem C10_accessible_metric_constant (p : ℚ) (hp0 : 0 ≤ p) (hp1 : p ≤ 100) :
    update_scenario p .F4 + update_scenario p .F8 + update_scenario p .F14
        + update_scenario p .F18 = 1950 + 57 * p / 8
    ∧ 50 < 1950 + 57 * p / 8
    ∧ (compute_circularity_metrics_N (update_scenario p)).accessible_N = 50
    ∧ 0 < outflow_from_C7 p
    ∧ (compute_circularity_metrics_N BASE_FLOWS_N).accessible_N = 50 := by
  refine ⟨?_, ?_, ?_, ?_, ?_⟩
  · rw [us_app_F4, us_app_F8, us_app_F14, us_app_F18, new_F8_eq]
    show (0 : ℚ) + (1900 + 57 * p / 8) + 0 + 50 = 1950 + 57 * p / 8
    ring
  · linarith
  · show min ACCESSIBLE_TARGET (update_scenario p .F4 + update_scenario p .F8
        + update_scenario p .F14 + update_scenario p .F18) = 50
    rw [us_app_F4, us_app_F8, us_app_F14, us_app_F18, new_F8_eq]
    show min (50 : ℚ) ((0 : ℚ) + (1900 + 57 * p / 8) + 0 + 50) = 50
    exact min_eq_left (by linarith)
  · rw [outflow_from_C7_eq p hp0]
    linarith
  · show min ACCESSIBLE_TARGET (BASE_FLOWS_N .F4 + BASE_FLOWS_N .F8
        + BASE_FLOWS_N .F14 + BASE_FLOWS_N .F18) = 50
    show min (50 : ℚ) ((0 : ℚ) + 1900 + 0 + 50) = 50
    norm_num

/-- Witness for C10 at percent 40. -/
theorem C10_accessible_metric_constant_witness :
    (0 : ℚ) ≤ 40 ∧ (40 : ℚ) ≤ 100 ∧
    (update_scenario 40 .F4 + update_scenario 40 .F8 + update_scenario 40 .F14
        + update_scenario 40 .F18 = 1950 + 57 * 40 / 8
    ∧ 50 < 1950 + 57 * (40 : ℚ) / 8
    ∧ (compute_circularity_metrics_N (update_scenario 40)).accessible_N = 50
    ∧ 0 < outflow_from_C7 40
    ∧ (compute_circularity_metrics_N BASE_FLOWS_N).accessible_N = 50) :=
  ⟨by norm_num, by norm_num,
    C10_accessible_metric_constant 40 (by norm_num) (by norm_num)⟩

/-
Error behaviour of the engine. The source has no validation of the
percentage parameter: update_scenario computes a table for any input.
-/

/-- C7 counterexample: at percent 150, outside [0,100], update_scenario does
not signal any error; it returns a flow table, with the negative housing
loss F7 = -450. This refutes the claim that an InvalidParameter condition
is signalled and no flow table is returned. -/
theorem C7_counterexample_no_rejection :
    (100 : ℚ) < 150
    ∧ update_scenario 150 .F7 = -450
    ∧ update_scenario 150 .F7 < 0 := by
  refine ⟨by norm_num, ?_, ?_⟩
  · rw [us_app_F7, new_F7_eq]; norm_num
  · rw [us_app_F7, new_F7_eq]; norm_num

/-- C7 amended: update_scenario performs no range validation: for percent
outside [0,100] it still returns the flow table given by the same formulas
(housing loss 900 - 9 percent, excretion 2400 + 9 percent); out-of-range
inputs are prevented only by the UI slider bounds. -/
theorem C7_no_parameter_validation (p : ℚ) (hp : p < 0 ∨ 100 < p) :
    update_scenario p .F7 = 900 - 9 * p
    ∧ update_scenario p .F6 = 2400 + 9 * p :=
  ⟨by rw [us_app_F7, new_F7_eq], by rw [us_app_F6, new_F6_eq]⟩

/-- Witness for the amended C7 at percent 150. -/
theorem C7_no_parameter_validation_witness :
    ((150 : ℚ) < 0 ∨ (100 : ℚ) < 150)
    ∧ (update_scenario 150 .F7 = 900 - 9 * 150
      ∧ update_scenario 150 .F6 = 2400 + 9 * 150) :=
  ⟨Or.inr (by norm_num),
    C7_no_parameter_validation 150 (Or.inr (by norm_num))⟩

/-- Error outcomes of partition-ratio derivation: zeroDivision models the
ZeroDivisionError that Python raises when a partition base is 0;
degenerateBaseline is the named condition of the design document, which
the source never signals (it exists here only so that fact can be stated). -/
inductive DeriveError where
  | zeroDivision
  | degenerateBaseline
deriving DecidableEq

/-- The eight baseline-derived partition fractions. -/
structure PartitionRatioSet where
  pF8 : ℚ
  pF9 : ℚ
  pF10 : ℚ
  pF11 : ℚ
  pF12 : ℚ
  pF13 : ℚ
  pF15 : ℚ
  pF16 : ℚ
deriving DecidableEq

/-- The module-level ratio derivation of the source over an arbitrary
baseline table: the divisions run in source order and a division whose
base is 0, which raises ZeroDivisionError in Python, short-circuits to
that error. -/
def derive_partitions (t : FlowTable) : Except DeriveError PartitionRatioSet :=
  let storage_out_total := t .F8 + t .F9 + t .F10
  let soil_out_total := t .F11 + t .F12 + t .F13
  let crop_in_baseline := t .F11
  if storage_out_total = 0 then .error .zeroDivision
  else if soil_out_total = 0 then .error .zeroDivision
  else if crop_in_baseline = 0 then .error .zeroDivision
  else .ok
    { pF8 := t .F8 / storage_out_total
      pF9 := t .F9 / storage_out_total
      pF10 := t .F10 / storage_out_total
      pF11 := t .F11 / soil_out_total
      pF12 := t .F12 / soil_out_total
      pF13 := t .F13 / soil_out_total
      pF15 := t .F15 / crop_in_baseline
      pF16 := t .F16 / crop_in_baseline }

/-- On the actual baseline the derivation succeeds with exactly the
module-level fractions of the source. -/
theorem derive_partitions_baseline :
    derive_partitions BASE_FLOWS_N
      = .ok ⟨P_F8, P_F9, P_F10, P_F11, P_F12, P_F13, P_F15, P_F16⟩ := by
  rw [P_F8_eq, P_F9_eq, P_F10_eq, P_F11_eq, P_F12_eq, P_F13_eq,
    P_F15_eq, P_F16_eq]
  norm_num [derive_partitions, BASE_FLOWS_N]

/-- A degenerate baseline: the manure-storage outflows F8, F9, F10 all 0, so
the storage partition base is 0. -/
def degenerate_storage_table : FlowTable := fun k =>
  match k with
  | .F8 => 0
  | .F9 => 0
  | .F10 => 0
  | k => BASE_FLOWS_N k

/-- C8 counterexample: on a baseline whose storage partition base is 0, the
derivation performs the division and fails with the zero-division error;
it does not signal the DegenerateBaseline condition the claim names. -/
theorem C8_counterexample_zero_division :
    derive_partitions degenerate_storage_table = .error .zeroDivision
    ∧ derive_partitions degenerate_storage_table
        ≠ .error .degenerateBaseline := by
  have h : derive_partitions degenerate_storage_table = .error .zeroDivision := by
    norm_num [derive_partitions, degenerate_storage_table]
  exact ⟨h, by rw [h]; simp⟩

/-- C8 amended: when any partition base of the given baseline table is 0
(storage F8+F9+F10, soil-available F11+F12+F13, or the crop base F11), the
ratio derivation raises the unguarded zero-division error; no
DegenerateBaseline condition exists in the code. -/
theorem C8_zero_base_raises_zero_division (t : FlowTable)
    (h : t .F8 + t .F9 + t .F10 = 0 ∨ t .F11 + t .F12 + t .F13 = 0
      ∨ t .F11 = 0) :
    derive_partitions t = .error .zeroDivision := by
  rcases h with h | h | h
  · simp [derive_partitions, h]
  · by_cases h1 : t .F8 + t .F9 + t .F10 = 0
    · simp [derive_partitions, h1]
    · simp [derive_partitions, h1, h]
  · by_cases h1 : t .F8 + t .F9 + t .F10 = 0
    · simp [derive_partitions, h1]
    · by_cases h2 : t .F11 + t .F12 + t .F13 = 0
      · simp [derive_partitions, h1, h2]
      · simp [derive_partitions, h1, h2, h]

/-- Witness for the amended C8 on the degenerate storage baseline. -/
theorem C8_zero_base_raises_zero_division_witness :
    (degenerate_storage_table .F8 + degenerate_storage_table .F9
        + degenerate_storage_table .F10 = 0
      ∨ degenerate_storage_table .F11 + degenerate_storage_table .F12
        + degenerate_storage_table .F13 = 0
      ∨ degenerate_storage_table .F11 = 0)
    ∧ derive_partitions degenerate_storage_table = .error .zeroDivision :=
  ⟨Or.inl (by norm_num [degenerate_storage_table]),
    C8_zero_base_raises_zero_division degenerate_storage_table
      (Or.inl (by norm_num [degenerate_storage_table]))⟩

/-
Metrics over a possibly-malformed flow table: a dict access of a missing
key raises KeyError in Python, modelled as an Option short-circuit. Each
assignment line of compute_circularity_metrics_N becomes one definition,
reading its keys in the evaluation order of the source.
-/

/-- A flow table that may be missing keys: none at the missing keys. -/
abbrev PartialFlowTable := FlowKey → Option ℚ

/-- External input line: reads F1, F3, F4. -/
def input_N_opt (flows : PartialFlowTable) : Option ℚ :=
  (flows .F1).bind fun f1 =>
  (flows .F3).bind fun f3 =>
  (flows .F4).map fun f4 => f1 + f3 + f4

/-- Pig exports line: reads F5, F19. -/
def pig_exports_opt (flows : PartialFlowTable) : Option ℚ :=
  (flows .F5).bind fun f5 =>
  (flows .F19).map fun f19 => f5 + f19

/-- Circular line: pig exports plus grain exports F16. -/
def circular_N_opt (flows : PartialFlowTable) : Option ℚ :=
  (pig_exports_opt flows).bind fun pe =>
  (flows .F16).map fun ge => pe + ge

/-- Soil-available inflow line: reads F4, F8, F14, F18. -/
def C7_in_opt (flows : PartialFlowTable) : Option ℚ :=
  (flows .F4).bind fun f4 =>
  (flows .F8).bind fun f8 =>
  (flows .F14).bind fun f14 =>
  (flows .F18).map fun f18 => f4 + f8 + f14 + f18

/-- Accessible line: the capped inflow. -/
def accessible_N_opt (flows : PartialFlowTable) : Option ℚ :=
  (C7_in_opt flows).map fun c => min ACCESSIBLE_TARGET c

/-- Environmental loss line: reads F7, F10, F12, F20. -/
def env_loss_opt (flows : PartialFlowTable) : Option ℚ :=
  (flows .F7).bind fun f7 =>
  (flows .F10).bind fun f10 =>
  (flows .F12).bind fun f12 =>
  (flows .F20).map fun f20 => f7 + f10 + f12 + f20

/-- Locked stable line: reads F9, F13, F14. -/
def locked_stable_opt (flows : PartialFlowTable) : Option ℚ :=
  (flows .F9).bind fun f9 =>
  (flows .F13).bind fun f13 =>
  (flows .F14).map fun f14 => f9 + f13 - f14

/-- compute_circularity_metrics_N over a possibly-malformed table: the
lines of the source run in order and a missing key short-circuits the
whole computation to none (KeyError). -/
def compute_metrics_of_dict (flows : PartialFlowTable) : Option Metrics :=
  (input_N_opt flows).bind fun i =>
  (circular_N_opt flows).bind fun c =>
  (accessible_N_opt flows).bind fun a =>
  (env_loss_opt flows).bind fun e =>
  (locked_stable_opt flows).map fun l =>
  { input_N := i
    circular_N := c
    accessible_N := a
    lost_N := e + l
    env_loss := e
    locked_stable := l }

/-- On a total table the dict version agrees with the pure metrics. -/
theorem compute_metrics_of_dict_total (flows : FlowTable) :
    compute_metrics_of_dict (fun k => some (flows k))
      = some (compute_circularity_metrics_N flows) := rfl

theorem input_N_opt_isSome (flows : PartialFlowTable) :
    (input_N_opt flows).isSome = true ↔
      (flows .F1).isSome = true ∧ (flows .F3).isSome = true
      ∧ (flows .F4).isSome = true := by
  cases h1 : flows .F1 <;> cases h3 : flows .F3 <;> cases h4 : flows .F4 <;>
    simp [input_N_opt, h1, h3, h4]

theorem pig_exports_opt_isSome (flows : PartialFlowTable) :
    (pig_exports_opt flows).isSome = true ↔
      (flows .F5).isSome = true ∧ (flows .F19).isSome = true := by
  cases h5 : flows .F5 <;> cases h19 : flows .F19 <;>
    simp [pig_exports_opt, h5, h19]

theorem circular_N_opt_isSome (flows : PartialFlowTable) :
    (circular_N_opt flows).isSome = true ↔
      (flows .F5).isSome = true ∧ (flows .F19).isSome = true
      ∧ (flows .F16).isSome = true := by
  have step : (circular_N_opt flows).isSome = true ↔
      (pig_exports_opt flows).isSome = true ∧ (flows .F16).isSome = true := by
    cases hpe : pig_exports_opt flows <;> cases h16 : flows .F16 <;>
      simp [circular_N_opt, hpe, h16]
  rw [step, pig_exports_opt_isSome, and_assoc]

theorem C7_in_opt_isSome (flows : PartialFlowTable) :
    (C7_in_opt flows).isSome = true ↔
      (flows .F4).isSome = true ∧ (flows .F8).isSome = true
      ∧ (flows .F14).isSome = true ∧ (flows .F18).isSome = true := by
  cases h4 : flows .F4 <;> cases h8 : flows .F8 <;> cases h14 : flows .F14 <;>
    cases h18 : flows .F18 <;> simp [C7_in_opt, h4, h8, h14, h18]

theorem accessible_N_opt_isSome (flows : PartialFlowTable) :
    (accessible_N_opt flows).isSome = true ↔
      (flows .F4).isSome = true ∧ (flows .F8).isSome = true
      ∧ (flows .F14).isSome = true ∧ (flows .F18).isSome = true := by
  rw [← C7_in_opt_isSome]
  cases hc : C7_in_opt flows <;> simp [accessible_N_opt, hc]

theorem env_loss_opt_isSome (flows : PartialFlowTable) :
    (env_loss_opt flows).isSome = true ↔
      (flows .F7).isSome = true ∧ (flows .F10).isSome = true
      ∧ (flows .F12).isSome = true ∧ (flows .F20).isSome = true := by
  cases h7 : flows .F7 <;> cases h10 : flows .F10 <;> cases h12 : flows .F12 <;>
    cases h20 : flows .F20 <;> simp [env_loss_opt, h7, h10, h12, h20]

theorem locked_stable_opt_isSome (flows : PartialFlowTable) :
    (locked_stable_opt flows).isSome = true ↔
      (flows .F9).isSome = true ∧ (flows .F13).isSome = true
      ∧ (flows .F14).isSome = true := by
  cases h9 : flows .F9 <;> cases h13 : flows .F13 <;> cases h14 : flows .F14 <;>
    simp [locked_stable_opt, h9, h13, h14]

theorem compute_metrics_of_dict_isSome (flows : PartialFlowTable) :
    (compute_metrics_of_dict flows).isSome = true ↔
      (input_N_opt flows).isSome = true
      ∧ (circular_N_opt flows).isSome = true
      ∧ (accessible_N_opt flows).isSome = true
      ∧ (env_loss_opt flows).isSome = true
      ∧ (locked_stable_opt flows).isSome = true := by
  cases hi : input_N_opt flows <;> cases hc : circular_N_opt flows <;>
    cases ha : accessible_N_opt flows <;> cases he : env_loss_opt flows <;>
    cases hl : locked_stable_opt flows <;>
    simp [compute_metrics_of_dict, hi, hc, ha, he, hl]

/-- The baseline table with key F2 removed. -/
def table_missing_F2 : PartialFlowTable := fun k =>
  match k with
  | .F2 => none
  | k => some (BASE_FLOWS_N k)

/-- C9 counterexample: the table missing only F2 is missing a key of the
20-key schema, yet the metrics computation succeeds, because the source
never reads F2; so a raise on every missing key of the schema is false. -/
theorem C9_counterexample_missing_F2 :
    table_missing_F2 .F2 = none
    ∧ (compute_metrics_of_dict table_missing_F2).isSome = true :=
  ⟨rfl, rfl⟩

/-- C9 amended: the metrics computation fails (KeyError, the MissingFlowKey
condition) exactly when one of the 15 keys it actually reads (F1, F3, F4,
F5, F19, F16, F8, F14, F18, F7, F10, F12, F20, F9, F13) is missing; a
table containing all 20 keys therefore always succeeds, and there is no
other error condition. Keys F2, F6, F11, F15, F17 are never read. -/
theorem C9_metrics_succeed_iff_read_keys_present (flows : PartialFlowTable) :
    (compute_metrics_of_dict flows).isSome = true ↔
      ((flows .F1).isSome = true ∧ (flows .F3).isSome = true
      ∧ (flows .F4).isSome = true ∧ (flows .F5).isSome = true
      ∧ (flows .F19).isSome = true ∧ (flows .F16).isSome = true
      ∧ (flows .F8).isSome = true ∧ (flows .F14).isSome = true
      ∧ (flows .F18).isSome = true ∧ (flows .F7).isSome = true
      ∧ (flows .F10).isSome = true ∧ (flows .F12).isSome = true
      ∧ (flows .F20).isSome = true ∧ (flows .F9).isSome = true
      ∧ (flows .F13).isSome = true) := by
  rw [compute_metrics_of_dict_isSome, input_N_opt_isSome,
    circular_N_opt_isSome, accessible_N_opt_isSome, env_loss_opt_isSome,
    locked_stable_opt_isSome]
  tauto
